import Mathlib

/-!
Shallow embedding of `src/parsing/regex.rs` from the syntect fork: the lazy
regex value abstraction (`Regex`, `RegexSource`, `Region`) wrapped around the
fancy-regex backend (`mod regex_impl`, the variant selected when the
`regex-fancy` feature is active).

External collaborators (the fancy_regex crate's parser/builder/matcher and the
`crate::dumps` binary codec) are not part of the embedded file; they appear as
the fields of a `RegexImpl` record of primitives, over which the file's own
functions are defined exactly as the Rust source composes them.  The expression
tree type `T` and the compiled matcher type `C` are opaque to this layer (the
Rust code only clones and compares trees), so they are type parameters.

Rust `panic!`/`expect`/`unwrap` paths are modelled as `Except.error`; byte
buffers are `List Nat`; text handed to the matcher is `List Char` (the claims
only exercise ASCII inputs, where byte offsets and character offsets agree).
-/

/-- Model of the external `fancy_regex::Captures` interface as used by the
embedded file: `captures.len()` and `captures.get(i)`, the latter already
projected to the `(start, end)` pair as in `init_from_captures`. -/
structure Captures where
  groups : List (Option (Nat × Nat))
deriving DecidableEq, Repr

/-- Rust `captures.len()`. -/
def Captures.len (c : Captures) : Nat := c.groups.length

/-- Rust `captures.get(i).map(|m| (m.start(), m.end()))`: `none` both for a
non-participating group and for an out-of-range index. -/
def Captures.get (c : Captures) (i : Nat) : Option (Nat × Nat) :=
  c.groups.getD i none

/-- The external primitives the embedded file calls, bundled: the
fancy_regex crate entry points used by `mod regex_impl` and the
`crate::dumps` codec used by the serde impls.  `T` is the expression tree
type (`fancy_regex::ExprTree`), `C` the compiled matcher
(`fancy_regex::Regex`).  Fallible Rust APIs are `Except String`. -/
structure RegexImpl (T C : Type) where
  /-- Rust `fancy_regex::Expr::parse_tree(pattern)` -/
  parse_tree : String → Except String T
  /-- Rust `crate::dumps::from_uncompressed_data(binary)` -/
  from_uncompressed_data : List Nat → Except String T
  /-- Rust `crate::dumps::dump_to_uncompressed_binary(tree)` -/
  dump_to_uncompressed_binary : T → List Nat
  /-- Rust `fancy_regex::RegexBuilder::new().build_from_expr_tree(tree)` (a
  `Result` in Rust; the embedded file unwraps it) -/
  build_from_expr_tree : T → Except String C
  /-- Rust `fancy_regex::Regex::is_match(text)`, returning `Result<bool>` -/
  fancy_is_match : C → List Char → Except String Bool
  /-- Rust `fancy_regex::Regex::captures_from_pos(text, pos)`, returning
  `Result<Option<Captures>>` -/
  fancy_captures_from_pos : C → List Char → Nat → Except String (Option Captures)

namespace regex_impl

/-- Rust `regex_impl::Region` (fancy backend): a growable list of optional
start/end offset pairs. -/
structure Region where
  positions : List (Option (Nat × Nat))
deriving DecidableEq, Repr

/-- Rust `regex_impl::new_region()` -/
def new_region : Region := { positions := [] }

/-- Rust `Region::init_from_captures`: clear, then push
`captures.get(i).map(|m| (m.start(), m.end()))` for `i in 0..captures.len()`. -/
def Region.init_from_captures (_r : Region) (captures : Captures) : Region :=
  { positions := (List.range captures.len).map (fun i => captures.get i) }

/-- Rust `Region::pos`: the stored pair when `i < positions.len()`, else `None`. -/
def Region.pos (r : Region) (i : Nat) : Option (Nat × Nat) :=
  if i < r.positions.length then r.positions.getD i none else none

/-- Rust `regex_impl::Regex::parse_expr_tree` -/
def parse_expr_tree {T C : Type} (impl : RegexImpl T C) (pattern : String) :
    Except String T :=
  impl.parse_tree pattern

/-- Rust `regex_impl::Regex::deserialize_expr_tree` -/
def deserialize_expr_tree {T C : Type} (impl : RegexImpl T C) (binary : List Nat) :
    Except String T :=
  impl.from_uncompressed_data binary

/-- Rust `regex_impl::Regex::from_expr_tree`: build, with the Rust `.unwrap()`
panic modelled as error propagation. -/
def from_expr_tree {T C : Type} (impl : RegexImpl T C) (expr_tree : T) :
    Except String C :=
  impl.build_from_expr_tree expr_tree

/-- Rust `regex_impl::Regex::is_match`: `self.regex.is_match(text).unwrap_or(false)`
— engine errors are treated as non-matches. -/
def is_match {T C : Type} (impl : RegexImpl T C) (c : C) (text : List Char) : Bool :=
  match impl.fancy_is_match c text with
  | Except.ok b => b
  | Except.error _ => false

/-- Rust `regex_impl::Regex::search`: run `captures_from_pos(&text[..end], begin)`;
on `Ok(Some(captures))` overwrite the region (when passed) and return true,
on `Ok(None)` or `Err(_)` return false leaving the region alone. -/
def search {T C : Type} (impl : RegexImpl T C) (c : C) (text : List Char)
    (begin_ end_ : Nat) (region : Option Region) : Bool × Option Region :=
  match impl.fancy_captures_from_pos c (text.take end_) begin_ with
  | Except.ok (some captures) =>
      (true, region.map (fun r => r.init_from_captures captures))
  | Except.ok none => (false, region)
  | Except.error _ => (false, region)

end regex_impl

/-- Rust `enum RegexSource`: the three source representations. -/
inductive RegexSource (T : Type) where
  | Pattern (pattern : String)
  | Binary (binary : List Nat)
  | ExprTree (tree : T)
deriving DecidableEq, Repr

/-- Rust `pub struct Regex`: a source representation plus the `OnceCell` slot for
the lazily compiled matcher (empty = `OnceCell::new()`, filled = compiled). -/
structure Regex (T C : Type) where
  source : RegexSource T
  regex : Option C
deriving DecidableEq, Repr

namespace Regex

/-- Rust `Regex::new(pattern)` -/
def new {T C : Type} (pattern : String) : Regex T C :=
  { source := RegexSource.Pattern pattern, regex := none }

/-- Rust `Regex::deserialize(binary)` -/
def deserialize {T C : Type} (binary : List Nat) : Regex T C :=
  { source := RegexSource.Binary binary, regex := none }

/-- Rust `Regex::from_expr_tree(tree)` -/
def from_expr_tree {T C : Type} (tree : T) : Regex T C :=
  { source := RegexSource.ExprTree tree, regex := none }

/-- Rust `Regex::try_compile`: `regex_impl::Regex::parse_expr_tree(regex_str).err()`. -/
def try_compile {T C : Type} (impl : RegexImpl T C) (regex_str : String) :
    Option String :=
  match regex_impl.parse_expr_tree impl regex_str with
  | Except.ok _ => none
  | Except.error e => some e

/-- Rust `Regex::expr_tree`: resolve the source representation to a tree. -/
def expr_tree {T C : Type} (impl : RegexImpl T C) (r : Regex T C) :
    Except String T :=
  match r.source with
  | RegexSource.Pattern pattern => regex_impl.parse_expr_tree impl pattern
  | RegexSource.Binary binary => regex_impl.deserialize_expr_tree impl binary
  | RegexSource.ExprTree tree => Except.ok tree

/-- Rust `Regex::regex` (the private accessor): `self.regex.get_or_init(...)`.
Returns the matcher together with the updated value state; the
`.expect("regex string should be pre-tested")` panic and the builder unwrap
are modelled as errors. -/
def regexGet {T C : Type} (impl : RegexImpl T C) (r : Regex T C) :
    Except String (C × Regex T C) :=
  match r.regex with
  | some c => Except.ok (c, r)
  | none =>
    match r.expr_tree impl with
    | Except.error e => Except.error e
    | Except.ok t =>
      match regex_impl.from_expr_tree impl t with
      | Except.error e => Except.error e
      | Except.ok c => Except.ok (c, { r with regex := some c })

/-- Rust `Regex::is_match`, with the state of the lazy cell threaded through. -/
def is_match {T C : Type} (impl : RegexImpl T C) (r : Regex T C)
    (text : List Char) : Except String (Bool × Regex T C) :=
  match r.regexGet impl with
  | Except.error e => Except.error e
  | Except.ok (c, r') => Except.ok (regex_impl.is_match impl c text, r')

end Regex

/-- Rust `pub struct Region`: the public wrapper around `regex_impl::Region`. -/
structure Region where
  region : regex_impl.Region
deriving DecidableEq, Repr

/-- Rust `Region::new()` -/
def Region.new : Region := { region := regex_impl.new_region }

/-- Rust `Region::pos` -/
def Region.pos (r : Region) (index : Nat) : Option (Nat × Nat) :=
  r.region.pos index

namespace Regex

/-- Rust `Regex::search`: delegate to `regex_impl::Regex::search`, passing the
inner region mutably; state of the lazy cell threaded through. -/
def search {T C : Type} (impl : RegexImpl T C) (r : Regex T C)
    (text : List Char) (begin_ end_ : Nat) (region : Option Region) :
    Except String (Bool × Option Region × Regex T C) :=
  match r.regexGet impl with
  | Except.error e => Except.error e
  | Except.ok (c, r') =>
    let res := regex_impl.search impl c text begin_ end_
      (region.map (fun rg => rg.region))
    Except.ok (res.1, res.2.map (fun inner => { region := inner }), r')

/-- Rust `impl PartialEq for Regex`: `self.source == other.source`, the derived
structural equality of `RegexSource`. -/
def req {T C : Type} [DecidableEq T] (r1 r2 : Regex T C) : Bool :=
  r1.source == r2.source

end Regex

namespace RegexSource

/-- Rust `impl Serialize for RegexSource`: always emit encoded-tree bytes —
`Binary` passes its bytes through, `ExprTree` encodes, `Pattern` parses then
encodes (a parse failure becomes the serde error "invalid regex"). -/
def serialize {T C : Type} (impl : RegexImpl T C) :
    RegexSource T → Except String (List Nat)
  | RegexSource.Binary binary => Except.ok binary
  | RegexSource.ExprTree tree => Except.ok (impl.dump_to_uncompressed_binary tree)
  | RegexSource.Pattern pattern =>
    match regex_impl.parse_expr_tree impl pattern with
    | Except.ok tree => Except.ok (impl.dump_to_uncompressed_binary tree)
    | Except.error _ => Except.error "invalid regex"

/-- Rust `impl Deserialize for RegexSource`: wrap the raw bytes as `Binary`
without decoding them. -/
def deserialize {T : Type} (bytes : List Nat) : RegexSource T :=
  RegexSource.Binary bytes

end RegexSource

/-- Serde round trip at the `Regex` level (the `#[serde(transparent)]`
derive): serialize the source, then rebuild a value from the bytes with an
empty lazy cell (`#[serde(skip)]`). -/
def Regex.serde_roundtrip {T C : Type} (impl : RegexImpl T C) (r : Regex T C) :
    Except String (Regex T C) :=
  match RegexSource.serialize impl r.source with
  | Except.ok bytes =>
      Except.ok { source := RegexSource.deserialize bytes, regex := none }
  | Except.error e => Except.error e

/-!
Concrete model instances of the external collaborators, used to evaluate the
embedded functions at explicit inputs.  They are models of the *external*
fancy_regex crate and `crate::dumps` codec (out of scope of the embedded
file), not of anything in `src/parsing/regex.rs` itself.
-/

/-- A model engine whose trees are naturals: parsing yields the pattern
length, the codec writes a tree as the singleton byte list `[n]` (so it
round-trips and rejects every other byte shape), building succeeds, and the
matcher finds nothing.  Exercises the data-management paths. -/
def natEngine : RegexImpl Nat Nat where
  parse_tree s := Except.ok s.length
  from_uncompressed_data bs :=
    match bs with
    | [n] => Except.ok n
    | _ => Except.error "corrupt"
  dump_to_uncompressed_binary t := [t]
  build_from_expr_tree t := Except.ok t
  fancy_is_match _ _ := Except.ok true
  fancy_captures_from_pos _ _ _ := Except.ok none

/-- A model engine for single-character literal patterns: the tree of
pattern `"a"` is the character `a`, and the matcher reports the first
occurrence at index ≥ `pos` in the text it is given, with the whole match as
the only capture group.  Used for the concrete bounded-search test. -/
def charEngine : RegexImpl Char Char where
  parse_tree s :=
    match s.data with
    | [c] => Except.ok c
    | _ => Except.error "unsupported pattern"
  from_uncompressed_data bs :=
    match bs with
    | [n] =>
      if n.isValidChar then Except.ok (Char.ofNat n)
      else Except.error "corrupt"
    | _ => Except.error "corrupt"
  dump_to_uncompressed_binary t := [t.toNat]
  build_from_expr_tree t := Except.ok t
  fancy_is_match c text := Except.ok (text.contains c)
  fancy_captures_from_pos c text pos :=
    match (text.drop pos).findIdx? (fun x => x = c) with
    | some j => Except.ok (some { groups := [some (pos + j, pos + j + 1)] })
    | none => Except.ok none

/-- A model engine whose matcher always fails internally (the runaway
backtracking scenario): every search/is_match call returns an engine error. -/
def errEngine : RegexImpl Nat Nat where
  parse_tree s := Except.ok s.length
  from_uncompressed_data _ := Except.error "corrupt"
  dump_to_uncompressed_binary t := [t]
  build_from_expr_tree t := Except.ok t
  fancy_is_match _ _ := Except.error "retry-limit-in-match over"
  fancy_captures_from_pos _ _ _ := Except.error "retry-limit-in-match over"

/-- A model engine that parses like `natEngine` but whose builder rejects
every tree: compilation fails even though parsing succeeded. -/
def badBuildEngine : RegexImpl Nat Nat :=
  { natEngine with build_from_expr_tree := fun _ => Except.error "build failed" }

/-- Instrumented driver for the exactly-once claim: run a sequence of
`is_match` calls, threading the value state through and recording, per call,
whether that call filled the lazy cell (the "compiled" observation point
transitioned from absent to present during the call). -/
def Regex.runIsMatches {T C : Type} (impl : RegexImpl T C) :
    Regex T C → List (List Char) → Except String (Regex T C × List Bool)
  | r, [] => Except.ok (r, [])
  | r, t :: ts =>
    match r.is_match impl t with
    | Except.error e => Except.error e
    | Except.ok (_, r') =>
      match Regex.runIsMatches impl r' ts with
      | Except.error e => Except.error e
      | Except.ok (rf, trace) =>
        Except.ok (rf, (r.regex.isNone && r'.regex.isSome) :: trace)

/-!  Shared helper lemmas about the lazy-compile accessor.  -/

/-- When `Regex::regex` succeeds it returns a state whose source is the
original source unchanged and whose cell holds the returned matcher; if the
cell was already filled, nothing changes at all. -/
theorem regexGet_ok {T C : Type} {impl : RegexImpl T C} {r r' : Regex T C} {c : C}
    (h : r.regexGet impl = Except.ok (c, r')) :
    r'.source = r.source ∧ r'.regex = some c := by
  unfold Regex.regexGet at h
  split at h
  · rename_i c0 hr
    simp only [Except.ok.injEq, Prod.mk.injEq] at h
    obtain ⟨hc, hr'⟩ := h
    subst hc
    subst hr'
    exact ⟨rfl, hr⟩
  · split at h
    · simp at h
    · split at h
      · simp at h
      · simp only [Except.ok.injEq, Prod.mk.injEq] at h
        obtain ⟨hc, hr'⟩ := h
        subst hc
        subst hr'
        exact ⟨rfl, rfl⟩

/-- A filled cell short-circuits `Regex::regex`. -/
theorem regexGet_of_some {T C : Type} (impl : RegexImpl T C) {r : Regex T C} {c : C}
    (h : r.regex = some c) : r.regexGet impl = Except.ok (c, r) := by
  unfold Regex.regexGet
  rw [h]

/-!  C1  -/

/-- C1, as stated, is false: `Regex::new("a")` and `Regex::from_expr_tree(1)`
resolve to structurally equal expression trees (the model engine parses `"a"`
to the tree `1`), yet `==` — which compares the stored `RegexSource` values
structurally — reports them unequal, because the variants differ. -/
theorem c1_counterexample :
    (Regex.new "a" : Regex Nat Nat).expr_tree natEngine =
      (Regex.from_expr_tree 1 : Regex Nat Nat).expr_tree natEngine ∧
    Regex.req (Regex.new "a" : Regex Nat Nat) (Regex.from_expr_tree 1) = false := by
  exact ⟨rfl, rfl⟩

/-- C1 amended: `==` on `Regex` is structural equality of the stored
`RegexSource` values — same variant with equal payload — not equality of the
expression trees the sources resolve to.  Source-equal values do resolve to
equal expression trees, but tree-equal values of different source forms
compare unequal (see the counterexample). -/
theorem c1_equality_is_source_equality {T C : Type} [DecidableEq T]
    (impl : RegexImpl T C) (r1 r2 : Regex T C) (h : Regex.req r1 r2 = true) :
    r1.source = r2.source ∧ r1.expr_tree impl = r2.expr_tree impl := by
  have hs : r1.source = r2.source := by
    simpa [Regex.req] using h
  exact ⟨hs, by simp only [Regex.expr_tree, hs]⟩

/-- Witness for C1 amended at two values built from the same pattern text. -/
theorem c1_witness :
    (Regex.new "a" : Regex Nat Nat).source = (Regex.new "a" : Regex Nat Nat).source ∧
    (Regex.new "a" : Regex Nat Nat).expr_tree natEngine =
      (Regex.new "a" : Regex Nat Nat).expr_tree natEngine :=
  c1_equality_is_source_equality natEngine (Regex.new "a") (Regex.new "a") (by decide)

/-!  C2  -/

/-- C2, as stated, is false: serializing a value built from pattern `"a"`
emits the encoded tree bytes `[1]` (with the model codec), and deserializing
them yields a `Binary`-sourced value, which `==` (source-representation
equality) reports unequal to the original `Pattern`-sourced value. -/
theorem c2_counterexample :
    Regex.serde_roundtrip natEngine (Regex.new "a" : Regex Nat Nat) =
      Except.ok (Regex.deserialize [1]) ∧
    Regex.req (Regex.deserialize [1] : Regex Nat Nat) (Regex.new "a") = false := by
  exact ⟨rfl, rfl⟩

/-- C2 amended: the serialize/deserialize round trip preserves the value's
*expression tree* (provided the external codec decodes what it encodes), but
the resulting value compares `==` to the original only when the original was
already in encoded-blob form, because `==` is source-representation
equality, and deserialization always yields a `Binary`-sourced value. -/
theorem c2_roundtrip_preserves_expr_tree {T C : Type} (impl : RegexImpl T C)
    (hcodec : ∀ t : T,
      impl.from_uncompressed_data (impl.dump_to_uncompressed_binary t) = Except.ok t)
    (v v' : Regex T C) (h : Regex.serde_roundtrip impl v = Except.ok v') :
    v'.expr_tree impl = v.expr_tree impl := by
  unfold Regex.serde_roundtrip at h
  cases hsrc : v.source with
  | Pattern pattern =>
    cases hp : regex_impl.parse_expr_tree impl pattern with
    | error e =>
      rw [hsrc] at h
      simp only [RegexSource.serialize, hp] at h
      cases h
    | ok t =>
      rw [hsrc] at h
      simp only [RegexSource.serialize, hp, Except.ok.injEq] at h
      subst h
      simp only [Regex.expr_tree, hsrc, RegexSource.deserialize, hp]
      exact hcodec t
  | Binary binary =>
    rw [hsrc] at h
    simp only [RegexSource.serialize, Except.ok.injEq] at h
    subst h
    simp only [Regex.expr_tree, hsrc, RegexSource.deserialize]
  | ExprTree tree =>
    rw [hsrc] at h
    simp only [RegexSource.serialize, Except.ok.injEq] at h
    subst h
    simp only [Regex.expr_tree, hsrc, RegexSource.deserialize]
    exact hcodec tree

/-- Witness for C2 amended: a pattern-sourced value round-trips to a
blob-sourced value with the same expression tree. -/
theorem c2_witness :
    (Regex.deserialize [2] : Regex Nat Nat).expr_tree natEngine =
      (Regex.new "ab" : Regex Nat Nat).expr_tree natEngine :=
  c2_roundtrip_preserves_expr_tree natEngine (fun _ => rfl)
    (Regex.new "ab") (Regex.deserialize [2]) rfl

/-!  C3  -/

/-- C3, as stated, is false: the empty byte list fails to decode into a tree
(the model codec rejects it), yet deserialization does not return an error —
it succeeds, storing the bytes verbatim as a `Binary` source; the decode
failure only surfaces later, when the tree is first demanded. -/
theorem c3_counterexample :
    natEngine.from_uncompressed_data [] = Except.error "corrupt" ∧
    (RegexSource.deserialize [] : RegexSource Nat) = RegexSource.Binary [] ∧
    (Regex.deserialize [] : Regex Nat Nat).expr_tree natEngine =
      Except.error "corrupt" := by
  exact ⟨rfl, rfl, rfl⟩

/-- C3 amended: deserialization of a `Regex` never fails and never decodes —
for every byte sequence it succeeds, wrapping the bytes undecoded as a
`Binary` source; a corrupt encoding is reported only later, when the
expression tree is first needed, as the decoder's error. -/
theorem c3_deserialization_defers_decoding {T C : Type} (impl : RegexImpl T C)
    (bytes : List Nat) :
    (RegexSource.deserialize bytes : RegexSource T) = RegexSource.Binary bytes ∧
    (Regex.deserialize bytes : Regex T C).source = RegexSource.Binary bytes ∧
    (Regex.deserialize bytes : Regex T C).expr_tree impl =
      regex_impl.deserialize_expr_tree impl bytes := by
  exact ⟨rfl, rfl, rfl⟩

/-!  C4  -/

/-- C4, as stated, is false: after the first `is_match`-triggered
compilation, the value simultaneously holds its original, still-unresolved
`Pattern` source representation *and* the compiled matcher — the source is
never cleared. -/
theorem c4_counterexample :
    (Regex.new "ab" : Regex Nat Nat).regexGet natEngine =
      Except.ok (2, { source := RegexSource.Pattern "ab", regex := some 2 }) := by
  rfl

/-- C4 amended: the source representation is retained unchanged after
compilation, alongside the cached matcher, and the expression tree is
reproduced on demand from the retained source (never from the compiled
matcher, which offers no tree-recovery operation in this code). -/
theorem c4_source_retained_after_compile {T C : Type} (impl : RegexImpl T C)
    (r r' : Regex T C) (c : C)
    (h : r.regexGet impl = Except.ok (c, r')) :
    r'.source = r.source ∧ r'.regex = some c ∧
    r'.expr_tree impl = r.expr_tree impl := by
  obtain ⟨hs, hc⟩ := regexGet_ok h
  refine ⟨hs, hc, ?_⟩
  simp only [Regex.expr_tree, hs]

/-- Witness for C4 amended at a concrete compiled value. -/
theorem c4_witness :
    ({ source := RegexSource.Pattern "ab", regex := some 2 } : Regex Nat Nat).source =
      (Regex.new "ab" : Regex Nat Nat).source ∧
    ({ source := RegexSource.Pattern "ab", regex := some 2 } : Regex Nat Nat).regex = some 2 ∧
    ({ source := RegexSource.Pattern "ab", regex := some 2 } : Regex Nat Nat).expr_tree natEngine =
      (Regex.new "ab" : Regex Nat Nat).expr_tree natEngine :=
  c4_source_retained_after_compile natEngine (Regex.new "ab")
    { source := RegexSource.Pattern "ab", regex := some 2 } 2 rfl

/-!  C5  -/

/-- C5, as stated, is false: with a model engine whose builder rejects every
tree, compiling the (successfully parsed) pattern `"a"` fails, yet
`try_compile` returns no error — it only parses and never invokes the
builder. -/
theorem c5_counterexample :
    Regex.try_compile badBuildEngine "a" = none ∧
    badBuildEngine.parse_tree "a" = Except.ok 1 ∧
    badBuildEngine.build_from_expr_tree 1 = Except.error "build failed" := by
  exact ⟨rfl, rfl, rfl⟩

/-- C5 amended: `try_compile` eagerly parses the pattern without caching any
state (it is a pure function of the pattern text), and returns an error iff
*parsing* fails; it never invokes the engine's build routine, so its result
is independent of the builder: two engines that parse identically give
identical `try_compile` results whatever their builders do. -/
theorem c5_try_compile_parses_only {T C : Type}
    (impl impl2 : RegexImpl T C) (s : String)
    (hparse : impl.parse_tree = impl2.parse_tree) :
    Regex.try_compile impl s = Regex.try_compile impl2 s ∧
    (Regex.try_compile impl s = none ↔
      ∃ t, impl.parse_tree s = Except.ok t) := by
  constructor
  · unfold Regex.try_compile regex_impl.parse_expr_tree
    rw [hparse]
  · unfold Regex.try_compile regex_impl.parse_expr_tree
    cases hp : impl.parse_tree s with
    | ok t => simp
    | error e => simp

/-- Witness for C5 amended: `natEngine` and `badBuildEngine` share a parser
but have different builders; `try_compile` cannot tell them apart. -/
theorem c5_witness :
    Regex.try_compile natEngine "a" = Regex.try_compile badBuildEngine "a" ∧
    (Regex.try_compile natEngine "a" = none ↔
      ∃ t, natEngine.parse_tree "a" = Except.ok t) :=
  c5_try_compile_parses_only natEngine badBuildEngine "a" rfl

/-!  C6  -/

/-- C6 confirmed: an internal engine error during matching is never
propagated — `is_match` and `search` both report "no match" (false), and
`search` leaves the passed region untouched. -/
theorem c6_engine_failure_is_no_match {T C : Type} (impl : RegexImpl T C)
    (c : C) (text : List Char) (begin_ end_ : Nat)
    (region : Option regex_impl.Region) (e1 e2 : String)
    (h1 : impl.fancy_is_match c text = Except.error e1)
    (h2 : impl.fancy_captures_from_pos c (text.take end_) begin_ =
      Except.error e2) :
    regex_impl.is_match impl c text = false ∧
    regex_impl.search impl c text begin_ end_ region = (false, region) := by
  unfold regex_impl.is_match regex_impl.search
  rw [h1, h2]
  exact ⟨rfl, rfl⟩

/-- Witness for C6 at the always-failing model engine. -/
theorem c6_witness :
    regex_impl.is_match errEngine 0 ['a'] = false ∧
    regex_impl.search errEngine 0 ['a'] 0 1
      (some { positions := [some (0, 1)] }) =
      (false, some { positions := [some (0, 1)] }) :=
  c6_engine_failure_is_no_match errEngine 0 ['a'] 0 1
    (some { positions := [some (0, 1)] })
    "retry-limit-in-match over" "retry-limit-in-match over" rfl rfl

/-!  C7  -/

/-- A filled cell makes `is_match` a pure call: no state change. -/
theorem is_match_of_some {T C : Type} (impl : RegexImpl T C) {r : Regex T C}
    {c : C} (h : r.regex = some c) (t : List Char) :
    r.is_match impl t = Except.ok (regex_impl.is_match impl c t, r) := by
  unfold Regex.is_match
  rw [regexGet_of_some impl h]

/-- A run starting from an already-compiled value performs no builds at all
and leaves the value untouched. -/
theorem runIsMatches_of_some {T C : Type} (impl : RegexImpl T C)
    {r : Regex T C} {c : C} (h : r.regex = some c) (ts : List (List Char)) :
    Regex.runIsMatches impl r ts = Except.ok (r, List.replicate ts.length false) := by
  induction ts with
  | nil => rfl
  | cons t ts ih =>
    unfold Regex.runIsMatches
    rw [is_match_of_some impl h]
    dsimp only
    rw [ih]
    simp [h, List.replicate_succ]

/-- C7 confirmed (sequential observation): across any successful sequence of
`is_match` calls on a value that starts uncompiled, the lazy cell transitions
from absent to present exactly once — on the first call — and every later
call finds it filled and performs no build. -/
theorem c7_compiles_exactly_once {T C : Type} (impl : RegexImpl T C)
    (r : Regex T C) (texts : List (List Char)) (rf : Regex T C)
    (trace : List Bool) (h0 : r.regex = none) (hne : texts ≠ [])
    (hrun : Regex.runIsMatches impl r texts = Except.ok (rf, trace)) :
    trace = true :: List.replicate (texts.length - 1) false := by
  cases texts with
  | nil => exact absurd rfl hne
  | cons t ts =>
    unfold Regex.runIsMatches at hrun
    cases hm : r.is_match impl t with
    | error e => rw [hm] at hrun; cases hrun
    | ok pr =>
      obtain ⟨b, r'⟩ := pr
      rw [hm] at hrun
      have hg : ∃ c, r.regexGet impl = Except.ok (c, r') := by
        unfold Regex.is_match at hm
        cases hg2 : r.regexGet impl with
        | error e => rw [hg2] at hm; cases hm
        | ok pr2 =>
          obtain ⟨c2, r2⟩ := pr2
          rw [hg2] at hm
          simp only [Except.ok.injEq, Prod.mk.injEq] at hm
          obtain ⟨hb2, hr2⟩ := hm
          subst hr2
          exact ⟨c2, rfl⟩
      obtain ⟨c, hg⟩ := hg
      have hsome := (regexGet_ok hg).2
      dsimp only at hrun
      rw [runIsMatches_of_some impl hsome] at hrun
      dsimp only at hrun
      simp only [Except.ok.injEq, Prod.mk.injEq] at hrun
      obtain ⟨hrf, htrace⟩ := hrun
      subst htrace
      simp [h0, hsome]

/-- Witness for C7: three calls on a fresh value; only the first builds. -/
theorem c7_witness :
    ([true, false, false] : List Bool) =
      true :: List.replicate (([['x'], ['y'], ['z']] : List (List Char)).length - 1) false :=
  c7_compiles_exactly_once natEngine (Regex.new "a") [['x'], ['y'], ['z']]
    { source := RegexSource.Pattern "a", regex := some 1 } [true, false, false]
    rfl (by simp) rfl

/-!  C8  -/

/-- C8 confirmed: when a search succeeds into a previously-populated region,
the region is rebuilt from scratch from the new match's captures — the result
is independent of the region's prior contents (never merged), and `pos`
returns `none` for every index at or beyond the new pattern's group count. -/
theorem c8_region_fully_overwritten {T C : Type} (impl : RegexImpl T C)
    (c : C) (text : List Char) (begin_ end_ : Nat)
    (rprev rother : regex_impl.Region) (captures : Captures) (i : Nat)
    (h : impl.fancy_captures_from_pos c (text.take end_) begin_ =
      Except.ok (some captures))
    (hi : captures.len ≤ i) :
    regex_impl.search impl c text begin_ end_ (some rprev) =
      (true, some (rprev.init_from_captures captures)) ∧
    rother.init_from_captures captures = rprev.init_from_captures captures ∧
    (rprev.init_from_captures captures).pos i = none := by
  refine ⟨?_, rfl, ?_⟩
  · unfold regex_impl.search
    rw [h]
    rfl
  · unfold regex_impl.Region.pos regex_impl.Region.init_from_captures
    simp only [List.length_map, List.length_range]
    rw [if_neg (Nat.not_lt.mpr hi)]

/-- Witness for C8: reusing a region that previously held a 3-group match in
a search whose new pattern captures a single group (the whole match) leaves
`pos 2 = none` — no stale offsets survive. -/
theorem c8_witness :
    regex_impl.search charEngine 'h' ['h', 'i'] 0 2
      (some { positions := [some (0, 1), some (1, 2), some (2, 3)] }) =
      (true, some (regex_impl.Region.init_from_captures
        { positions := [some (0, 1), some (1, 2), some (2, 3)] }
        { groups := [some (0, 1)] })) ∧
    regex_impl.Region.init_from_captures { positions := [] }
        { groups := [some (0, 1)] } =
      regex_impl.Region.init_from_captures
        { positions := [some (0, 1), some (1, 2), some (2, 3)] }
        { groups := [some (0, 1)] } ∧
    (regex_impl.Region.init_from_captures
        { positions := [some (0, 1), some (1, 2), some (2, 3)] }
        { groups := [some (0, 1)] }).pos 2 = none :=
  c8_region_fully_overwritten charEngine 'h' ['h', 'i'] 0 2
    { positions := [some (0, 1), some (1, 2), some (2, 3)] }
    { positions := [] } { groups := [some (0, 1)] } 2 rfl (by decide)

/-!  C9  -/

/-- C9 confirmed: `search` hands the engine the text truncated at `end` and
the start position `begin`, so with pattern `a`, text `"aaa"`, `begin = 1`,
`end = 2`, the reported match is the occurrence at offset 1 (capture 0 is
`(1, 2)`), not the one at offset 0. -/
theorem c9_bounded_search :
    (Regex.new "a" : Regex Char Char).search charEngine ['a', 'a', 'a'] 1 2
      (some Region.new) =
      Except.ok (true, some { region := { positions := [some (1, 2)] } },
        { source := RegexSource.Pattern "a", regex := some 'a' }) := by
  rfl

/-!  C10  -/

/-- At the engine-adapter layer, an unsuccessful search returns the region
argument exactly as it was passed. -/
theorem search_false_region_id {T C : Type} (impl : RegexImpl T C) (c : C)
    (text : List Char) (begin_ end_ : Nat) (region : Option regex_impl.Region)
    (h : (regex_impl.search impl c text begin_ end_ region).1 = false) :
    (regex_impl.search impl c text begin_ end_ region).2 = region := by
  unfold regex_impl.search at h ⊢
  cases hc : impl.fancy_captures_from_pos c (text.take end_) begin_ with
  | error e => rfl
  | ok oc =>
    cases oc with
    | none => rfl
    | some captures => rw [hc] at h; cases h

/-- C10 confirmed: when a `Regex::search` call returns false, the supplied
region comes back exactly as it went in — no clearing, no partial update. -/
theorem c10_no_match_region_unchanged {T C : Type} (impl : RegexImpl T C)
    (r : Regex T C) (text : List Char) (begin_ end_ : Nat)
    (region : Option Region) (out : Bool × Option Region × Regex T C)
    (h : r.search impl text begin_ end_ region = Except.ok out)
    (hf : out.1 = false) :
    out.2.1 = region := by
  unfold Regex.search at h
  cases hg : r.regexGet impl with
  | error e => rw [hg] at h; cases h
  | ok pr =>
    obtain ⟨c, r'⟩ := pr
    rw [hg] at h
    dsimp only at h
    simp only [Except.ok.injEq] at h
    subst h
    dsimp only at hf
    have hreg := search_false_region_id impl c text begin_ end_
      (region.map (fun rg => rg.region)) hf
    dsimp only
    rw [hreg]
    cases region with
    | none => rfl
    | some rg => rfl

/-- Witness for C10: a failing search (the model engine never matches) hands
back a non-empty region with its previous capture positions intact. -/
theorem c10_witness :
    ((false, some ({ region := { positions := [some (5, 6)] } } : Region),
        ({ source := RegexSource.Pattern "a", regex := some 1 } : Regex Nat Nat)) :
        Bool × Option Region × Regex Nat Nat).2.1 =
      some { region := { positions := [some (5, 6)] } } :=
  c10_no_match_region_unchanged natEngine (Regex.new "a") ['x'] 0 1
    (some { region := { positions := [some (5, 6)] } })
    (false, some { region := { positions := [some (5, 6)] } },
      { source := RegexSource.Pattern "a", regex := some 1 }) rfl rfl
